import Mathlib

/-!
Verification development for the tabular data cache and query subsystem of
the pyworker (engine/tools/pyworker/worker.py).  The Python functions under
study are shallowly embedded as executable Lean definitions; machine
integers are modelled as Nat/Int, fallible code as Except, and the
filesystem (for the writers) as an explicit map from paths to contents.
-/

namespace Tabular

/-- Single-quote character, written by code point to keep sources clean. -/
def squote : Char := Char.ofNat 39

/-- Double-quote character. -/
def dquote : Char := Char.ofNat 34

/-- Newline character. -/
def nl : Char := Char.ofNat 10

/-- Whitespace predicate matching Python str.strip and the regex class
backslash-s on the ASCII inputs the validator handles: space, tab,
newline, vertical tab, form feed, carriage return. -/
def isPySpace (c : Char) : Bool :=
  (c = ' ') || (c = Char.ofNat 9) || (c = Char.ofNat 10) ||
    (c = Char.ofNat 11) || (c = Char.ofNat 12) || (c = Char.ofNat 13)

/-- Python str.strip(): remove leading and trailing whitespace. -/
def pyStrip (s : List Char) : List Char :=
  ((s.dropWhile isPySpace).reverse.dropWhile isPySpace).reverse

/-- Python str.lower restricted to the ASCII range used by the validator. -/
def pyLower (s : List Char) : List Char := s.map Char.toLower

/-- Python str.upper restricted to the ASCII range used by the type tags. -/
def pyUpper (s : List Char) : List Char := s.map Char.toUpper

/-- States of the character scanner of
_tabular_strip_sql_literals_and_comments (worker.py:5230). -/
inductive SqlStripState where
  | normal
  | singleQuote
  | doubleQuote
  | lineComment
  | blockComment
deriving DecidableEq

/-- Embedding of the scanning loop of
_tabular_strip_sql_literals_and_comments (worker.py:5230-5290).  The
Python loop reads the current character and a one-character lookahead;
here each step consumes one or two list elements accordingly. -/
def stripSqlAux : SqlStripState → List Char → List Char
  | _, [] => []
  | SqlStripState.normal, c :: rest =>
    if c = squote then ' ' :: stripSqlAux SqlStripState.singleQuote rest
    else if c = dquote then ' ' :: stripSqlAux SqlStripState.doubleQuote rest
    else if c = '-' then
      match rest with
      | '-' :: rest2 => stripSqlAux SqlStripState.lineComment rest2
      | rest => '-' :: stripSqlAux SqlStripState.normal rest
    else if c = '/' then
      match rest with
      | '*' :: rest2 => stripSqlAux SqlStripState.blockComment rest2
      | rest => '/' :: stripSqlAux SqlStripState.normal rest
    else c :: stripSqlAux SqlStripState.normal rest
  | SqlStripState.singleQuote, c :: rest =>
    if c = squote then
      match rest with
      | d :: rest2 =>
        if d = squote then stripSqlAux SqlStripState.singleQuote rest2
        else stripSqlAux SqlStripState.normal (d :: rest2)
      | [] => stripSqlAux SqlStripState.normal []
    else stripSqlAux SqlStripState.singleQuote rest
  | SqlStripState.doubleQuote, c :: rest =>
    if c = dquote then
      match rest with
      | d :: rest2 =>
        if d = dquote then stripSqlAux SqlStripState.doubleQuote rest2
        else stripSqlAux SqlStripState.normal (d :: rest2)
      | [] => stripSqlAux SqlStripState.normal []
    else stripSqlAux SqlStripState.doubleQuote rest
  | SqlStripState.lineComment, c :: rest =>
    if c = nl then nl :: stripSqlAux SqlStripState.normal rest
    else stripSqlAux SqlStripState.lineComment rest
  | SqlStripState.blockComment, c :: rest =>
    if c = '*' then
      match rest with
      | '/' :: rest2 => stripSqlAux SqlStripState.normal rest2
      | rest => stripSqlAux SqlStripState.blockComment rest
    else if c = nl then nl :: stripSqlAux SqlStripState.blockComment rest
    else stripSqlAux SqlStripState.blockComment rest

/-- _tabular_strip_sql_literals_and_comments as a whole-string function. -/
def stripSqlLiteralsAndComments (s : List Char) : List Char :=
  stripSqlAux SqlStripState.normal s

/-- The closed set _DANGEROUS_KEYWORDS (worker.py:5294-5299). -/
def dangerousKeywords : List String :=
  ["insert", "update", "delete", "drop", "alter", "create", "replace",
   "truncate", "copy", "attach", "detach", "pragma", "set", "call",
   "vacuum", "analyze", "grant", "revoke", "comment", "install",
   "load", "export", "import", "merge"]

/-- The set _IDENT_CONTEXT_TOKENS (worker.py:5306-5317). -/
def identContextTokens : List String :=
  ["select", "from", "join", "on", "as", "by", "where", "having",
   "and", "or", "not", "in", "between", "like", "ilike", "is",
   "when", "then", "else", "distinct", "all", "over", "partition",
   "using", "limit", "offset", "case", "end", "with", "recursive",
   "filter", "within", "respect", "ignore", "nulls", "asc", "desc",
   "group", "order", "into",
   ",", ".", "(", ")", "=", "<", ">", "!", "+", "-", "*", "/",
   "|", "&", "^", "~", "%"]

/-- Punctuation class of _TOKEN_SPLIT_RE (worker.py:5319). -/
def isSqlPunct (c : Char) : Bool :=
  (c = ',') || (c = ';') || (c = '.') || (c = '(') || (c = ')') ||
    (c = '[') || (c = ']') || (c = '=') || (c = '<') || (c = '>') ||
    (c = '!') || (c = '+') || (c = '-') || (c = '*') || (c = '/') ||
    (c = '|') || (c = '&') || (c = Char.ofNat 94) || (c = '~') || (c = '%')

/-- Flush the in-progress word accumulator of the tokenizer. -/
def flushAcc (acc : List Char) : List String :=
  if acc.isEmpty then [] else [String.mk acc.reverse]

/-- Tokenizer used by _tabular_find_dangerous_keyword: re.split on
whitespace and the punctuation class, keeping the punctuation and the
word runs and dropping whitespace and empty parts (worker.py:5329-5330). -/
def tokenizeSqlAux (acc : List Char) : List Char → List String
  | [] => flushAcc acc
  | c :: rest =>
    if isPySpace c then flushAcc acc ++ tokenizeSqlAux [] rest
    else if isSqlPunct c then flushAcc acc ++ [String.mk [c]] ++ tokenizeSqlAux [] rest
    else tokenizeSqlAux (c :: acc) rest

/-- Token list of a lowered, stripped SQL text. -/
def tokenizeSql (s : List Char) : List String := tokenizeSqlAux [] s

/-- Loop body of _tabular_find_dangerous_keyword (worker.py:5331-5339):
prev carries the previous token, and a dangerous keyword is skipped when
prev is an identifier-context token. -/
def findDangerousAux : Option String → List String → Option String
  | _, [] => none
  | prev, t :: ts =>
    if t ∈ dangerousKeywords then
      match prev with
      | some p => if p ∈ identContextTokens then findDangerousAux (some t) ts else some t
      | none => some t
    else findDangerousAux (some t) ts

/-- _tabular_find_dangerous_keyword (worker.py:5322-5339). -/
def findDangerousKeyword (loweredSql : List Char) : Option String :=
  findDangerousAux none (tokenizeSql loweredSql)

/-- Word-character class of the path-reading regex alternatives
(lower-case letters, digits, underscore; the scanned text is lowered). -/
def isWordChar (c : Char) : Bool :=
  (('a' ≤ c) && (c ≤ 'z')) || (('0' ≤ c) && (c ≤ '9')) || (c = '_')

/-- Does the needle occur as a prefix of the haystack. -/
def startsWithChars : List Char → List Char → Bool
  | _, [] => true
  | [], _ :: _ => false
  | c :: cs, d :: ds => (c = d) && startsWithChars cs ds

/-- Does the needle occur as a suffix of the haystack. -/
def endsWithChars (hay needle : List Char) : Bool :=
  startsWithChars hay.reverse needle.reverse

/-- Does the needle occur as a contiguous substring of the haystack. -/
def listHasSub (needle : List Char) : List Char → Bool
  | [] => startsWithChars [] needle
  | c :: cs => startsWithChars (c :: cs) needle || listHasSub needle cs

/-- Attempt to match one alternative of the path-reading regex
(worker.py:5374-5377) at the head of the text, which must sit at a word
boundary.  Each alternative is a word-character expression followed by
optional whitespace and an opening parenthesis, so a match at a boundary
is equivalent to: the maximal word run here starts with read underscore
(plus at least one more character), or ends in underscore scan (with at
least one character before), or equals glob, open_url or httpfs, and the
run is followed, after optional whitespace, by an opening parenthesis. -/
def pathReadingMatchAt (cs : List Char) : Bool :=
  let run := cs.takeWhile isWordChar
  let rest := (cs.dropWhile isWordChar).dropWhile isPySpace
  (rest.head? = some '(') &&
    ((startsWithChars run ("read_".data) && decide (6 ≤ run.length)) ||
      (endsWithChars run ("_scan".data) && decide (6 ≤ run.length)) ||
      (run = "glob".data) || (run = "open_url".data) || (run = "httpfs".data))

/-- Scan for the path-reading regex anywhere in the lowered text: the
boolean argument records whether the previous character was a word
character (no word boundary there). -/
def pathReadingScanAux : Bool → List Char → Bool
  | _, [] => false
  | prevWord, c :: rest =>
    if isWordChar c then
      ((!prevWord) && pathReadingMatchAt (c :: rest)) || pathReadingScanAux true rest
    else pathReadingScanAux false rest

/-- The re.search of the path-reading pattern in _tabular_validate_query
(worker.py:5374-5377), as a decision procedure. -/
def hasPathReadingCall (loweredSql : List Char) : Bool :=
  pathReadingScanAux false loweredSql

/-- Scanning copy of a raw query: literals and comments stripped, then
surrounding whitespace trimmed (worker.py:5349). -/
def checkedOf (rawChars : List Char) : List Char :=
  pyStrip (stripSqlLiteralsAndComments (pyStrip rawChars))

/-- Error message of the trailing-semicolon check, built without a
literal apostrophe. -/
def endMsg : String :=
  "query must end with " ++ String.mk [squote, ';', squote]

/-- Tail of _tabular_validate_query after the semicolon handling
(worker.py:5363-5380): re-check non-emptiness, require the first
whitespace-delimited token to be select or with, run the dangerous
keyword scan and the path-reading pattern, and return the (possibly
semicolon-trimmed) query text. -/
def validateTail (query checked : List Char) : Except String String :=
  if checked.isEmpty then Except.error "invalid query"
  else
    if pyLower (checked.takeWhile (fun c => !(isPySpace c))) = "select".data ∨
        pyLower (checked.takeWhile (fun c => !(isPySpace c))) = "with".data then
      match findDangerousKeyword (pyLower checked) with
      | some _ => Except.error "query must be read-only"
      | none =>
        if hasPathReadingCall (pyLower checked) then
          Except.error "path-reading functions are not allowed"
        else Except.ok (String.mk query)
    else Except.error "only SELECT/CTE queries are allowed"

/-- Body of _tabular_validate_query for a present raw query
(worker.py:5345-5380).  query is the trimmed original, checked the
trimmed scanning copy; more than one semicolon in the scanning copy is
rejected, exactly one must terminate both texts and is then trimmed. -/
def validateSome (rawChars : List Char) : Except String String :=
  if (pyStrip rawChars).isEmpty then Except.error "missing query"
  else if (checkedOf rawChars).isEmpty then Except.error "invalid query"
  else if 1 < (checkedOf rawChars).count ';' then
    Except.error "query must be a single statement"
  else if (checkedOf rawChars).count ';' = 1 then
    if (checkedOf rawChars).getLast? = some ';' then
      if (pyStrip rawChars).getLast? = some ';' then
        validateTail (pyStrip (pyStrip rawChars).dropLast)
          (pyStrip (checkedOf rawChars).dropLast)
      else Except.error endMsg
    else Except.error "query must be a single statement"
  else validateTail (pyStrip rawChars) (checkedOf rawChars)

/-- _tabular_validate_query (worker.py:5342-5380); a missing query is a
validation error. -/
def tabularValidateQuery (rawQuery : Option String) : Except String String :=
  match rawQuery with
  | none => Except.error "missing query"
  | some raw => validateSome raw.data

end Tabular

namespace Tabular

/-- Predicate underlying the dangerous-keyword scan: some token of the
list is a dangerous keyword whose immediately preceding token (prev for
the head) is not an identifier-context token. -/
def hasDangerousPair : String → List String → Prop
  | _, [] => False
  | prev, t :: ts =>
    (t ∈ dangerousKeywords ∧ prev ∉ identContextTokens) ∨ hasDangerousPair t ts

theorem findDangerousAux_isSome_iff (ts : List String) :
    ∀ prev : String,
      (findDangerousAux (some prev) ts).isSome = true ↔ hasDangerousPair prev ts := by
  induction ts with
  | nil => intro prev; simp [findDangerousAux, hasDangerousPair]
  | cons t ts ih =>
    intro prev
    by_cases ht : t ∈ dangerousKeywords
    · by_cases hp : prev ∈ identContextTokens
      · simp only [findDangerousAux, if_pos ht, if_pos hp, hasDangerousPair]
        rw [ih t]
        constructor
        · exact fun h => Or.inr h
        · rintro (⟨_, hnp⟩ | h)
          · exact absurd hp hnp
          · exact h
      · simp only [findDangerousAux, if_pos ht, if_neg hp, hasDangerousPair]
        constructor
        · exact fun _ => Or.inl ⟨ht, hp⟩
        · intro _; rfl
    · simp only [findDangerousAux, if_neg ht, hasDangerousPair]
      rw [ih t]
      constructor
      · exact fun h => Or.inr h
      · rintro (⟨ht2, _⟩ | h)
        · exact absurd ht2 ht
        · exact h

theorem hasDangerousPair_iff_decomp (ts : List String) :
    ∀ prev : String,
      hasDangerousPair prev ts ↔
        ∃ pre a b post, prev :: ts = pre ++ a :: b :: post ∧
          b ∈ dangerousKeywords ∧ a ∉ identContextTokens := by
  induction ts with
  | nil =>
    intro prev
    simp only [hasDangerousPair, false_iff]
    rintro ⟨pre, a, b, post, heq, -, -⟩
    have := congrArg List.length heq
    simp at this
    omega
  | cons t ts ih =>
    intro prev
    simp only [hasDangerousPair]
    constructor
    · rintro (⟨hb, ha⟩ | h)
      · exact ⟨[], prev, t, ts, rfl, hb, ha⟩
      · obtain ⟨pre, a, b, post, heq, hb, ha⟩ := (ih t).mp h
        exact ⟨prev :: pre, a, b, post, by simp [heq], hb, ha⟩
    · rintro ⟨pre, a, b, post, heq, hb, ha⟩
      cases pre with
      | nil =>
        simp only [List.nil_append, List.cons.injEq] at heq
        obtain ⟨h1, h2, h3⟩ := heq
        subst h1; subst h2; subst h3
        exact Or.inl ⟨hb, ha⟩
      | cons p pre =>
        simp only [List.cons_append, List.cons.injEq] at heq
        exact Or.inr ((ih t).mpr ⟨pre, a, b, post, heq.2, hb, ha⟩)

theorem stripSqlAux_singleQuote_skips (lit : List Char) :
    ∀ rest : List Char, squote ∉ lit → rest.head? ≠ some squote →
      stripSqlAux SqlStripState.singleQuote (lit ++ squote :: rest)
        = stripSqlAux SqlStripState.normal rest := by
  induction lit with
  | nil =>
    intro rest _ hrest
    cases rest with
    | nil => simp [stripSqlAux]
    | cons d rest2 =>
      have hd : ¬ d = squote := by
        intro h; exact hrest (by simp [h])
      simp [stripSqlAux, hd]
  | cons c cs ih =>
    intro rest hlit hrest
    have hc : ¬ c = squote := fun h => hlit (by simp [h])
    have hcs : squote ∉ cs := fun h => hlit (List.mem_cons_of_mem _ h)
    simp only [List.cons_append]
    conv_lhs => rw [stripSqlAux.eq_def]
    simp only [if_neg hc]
    exact ih rest hcs hrest

theorem stripSqlAux_doubleQuote_skips (lit : List Char) :
    ∀ rest : List Char, dquote ∉ lit → rest.head? ≠ some dquote →
      stripSqlAux SqlStripState.doubleQuote (lit ++ dquote :: rest)
        = stripSqlAux SqlStripState.normal rest := by
  induction lit with
  | nil =>
    intro rest _ hrest
    cases rest with
    | nil => simp [stripSqlAux]
    | cons d rest2 =>
      have hd : ¬ d = dquote := by
        intro h; exact hrest (by simp [h])
      simp [stripSqlAux, hd]
  | cons c cs ih =>
    intro rest hlit hrest
    have hc : ¬ c = dquote := fun h => hlit (by simp [h])
    have hcs : dquote ∉ cs := fun h => hlit (List.mem_cons_of_mem _ h)
    simp only [List.cons_append]
    conv_lhs => rw [stripSqlAux.eq_def]
    simp only [if_neg hc]
    exact ih rest hcs hrest

theorem stripSqlAux_lineComment_skips (body : List Char) :
    ∀ rest : List Char, nl ∉ body →
      stripSqlAux SqlStripState.lineComment (body ++ nl :: rest)
        = nl :: stripSqlAux SqlStripState.normal rest := by
  induction body with
  | nil => intro rest _; simp [stripSqlAux]
  | cons c cs ih =>
    intro rest hbody
    have hc : ¬ c = nl := fun h => hbody (by simp [h])
    simp only [List.cons_append]
    conv_lhs => rw [stripSqlAux.eq_def]
    simp only [if_neg hc]
    exact ih rest (fun h => hbody (List.mem_cons_of_mem _ h))

theorem stripSqlAux_blockComment_skips (body : List Char) :
    ∀ rest : List Char, ('*' : Char) ∉ body →
      stripSqlAux SqlStripState.blockComment (body ++ '*' :: '/' :: rest)
        = body.filter (fun c => c = nl) ++ stripSqlAux SqlStripState.normal rest := by
  induction body with
  | nil => intro rest _; simp [stripSqlAux]
  | cons c cs ih =>
    intro rest hbody
    have hc : ¬ c = '*' := fun h => hbody (by simp [h])
    have hcs : ('*' : Char) ∉ cs := fun h => hbody (List.mem_cons_of_mem _ h)
    simp only [List.cons_append]
    conv_lhs => rw [stripSqlAux.eq_def]
    by_cases hn : c = nl
    · subst hn
      simp only [if_neg hc, if_pos rfl]
      rw [ih rest hcs]
      simp [List.filter_cons]
    · simp only [if_neg hc, if_neg hn]
      rw [ih rest hcs]
      simp [List.filter_cons, hn]

theorem validateTail_ok (query checked : List Char) (q : String)
    (h : validateTail query checked = Except.ok q) : q = String.mk query := by
  unfold validateTail at h
  by_cases h1 : checked.isEmpty
  · rw [if_pos h1] at h; exact absurd h (by simp)
  · rw [if_neg h1] at h
    by_cases h2 : pyLower (checked.takeWhile (fun c => !(isPySpace c))) = "select".data ∨
        pyLower (checked.takeWhile (fun c => !(isPySpace c))) = "with".data
    · rw [if_pos h2] at h
      cases hfind : findDangerousKeyword (pyLower checked) with
      | some k => rw [hfind] at h; exact absurd h (by simp)
      | none =>
        rw [hfind] at h
        by_cases h3 : hasPathReadingCall (pyLower checked) = true
        · rw [if_pos h3] at h; exact absurd h (by simp)
        · rw [if_neg h3] at h
          exact ((Except.ok.injEq _ _).mp h).symm
    · rw [if_neg h2] at h; exact absurd h (by simp)

theorem validate_count_zero_or_one (raw : String) (q : String)
    (h : tabularValidateQuery (some raw) = Except.ok q) :
    ((checkedOf raw.data).count ';' = 0 ∧ q = String.mk (pyStrip raw.data))
    ∨ ((checkedOf raw.data).count ';' = 1
        ∧ q = String.mk (pyStrip (pyStrip raw.data).dropLast)) := by
  simp only [tabularValidateQuery, validateSome] at h
  split_ifs at h with h1 h2 h3 h4 h5 h6 <;>
    first
      | exact absurd h (by simp)
      | exact Or.inr ⟨by omega, validateTail_ok _ _ _ h⟩
      | exact Or.inl ⟨by omega, validateTail_ok _ _ _ h⟩

theorem validate_single_semicolon_ends (raw : String) (q : String)
    (h : tabularValidateQuery (some raw) = Except.ok q)
    (hc : (checkedOf raw.data).count ';' = 1) :
    (checkedOf raw.data).getLast? = some ';'
      ∧ (pyStrip raw.data).getLast? = some ';' := by
  simp only [tabularValidateQuery, validateSome] at h
  split_ifs at h with h1 h2 h3 h4 h5
  exact ⟨h4, h5⟩

theorem validate_multi_semicolon (raw : String)
    (h : 1 < ((checkedOf raw.data).count ';')) :
    (tabularValidateQuery (some raw)).isOk = false := by
  simp only [tabularValidateQuery, validateSome]
  split_ifs <;> rfl

/-- C1: the query validator settles the six literal cases of the spec
table exactly as listed: SELECT 1 is accepted; the two-statement payload
is rejected; DROP TABLE data is rejected because its first token is not
select or with; SELECT Comment FROM data is accepted through the
identifier-context exception; a read_csv call is rejected as a
path-reading function; SELECT 1 with a trailing semicolon is accepted
and returned with the semicolon stripped. -/
theorem c1_validator_literal_cases :
    tabularValidateQuery (some "SELECT 1") = Except.ok "SELECT 1"
    ∧ tabularValidateQuery (some "SELECT * FROM data; DROP TABLE data")
        = Except.error "query must be a single statement"
    ∧ tabularValidateQuery (some "DROP TABLE data")
        = Except.error "only SELECT/CTE queries are allowed"
    ∧ tabularValidateQuery (some "SELECT Comment FROM data")
        = Except.ok "SELECT Comment FROM data"
    ∧ tabularValidateQuery
          (some ("SELECT * FROM read_csv(" ++ String.mk [squote] ++ "x.csv"
            ++ String.mk [squote] ++ ")"))
        = Except.error "path-reading functions are not allowed"
    ∧ tabularValidateQuery (some "SELECT 1;") = Except.ok "SELECT 1" :=
  ⟨rfl, rfl, rfl, rfl, rfl, rfl⟩

/-- C2: for a tokenized query whose first token is select or with (as
every query passing the earlier validation steps has), the dangerous
keyword scan fires if and only if some token is a dangerous keyword
whose immediately preceding token is not an identifier-context token. -/
theorem c2_dangerous_keyword_scan (s : List Char)
    (h : (tokenizeSql s).head? = some "select"
      ∨ (tokenizeSql s).head? = some "with") :
    (findDangerousKeyword s).isSome = true ↔
      ∃ pre a b post, tokenizeSql s = pre ++ a :: b :: post ∧
        b ∈ dangerousKeywords ∧ a ∉ identContextTokens := by
  obtain ⟨t0, rest, htoks, ht0⟩ :
      ∃ t0 rest, tokenizeSql s = t0 :: rest ∧ t0 ∉ dangerousKeywords := by
    rcases h with h | h
    · cases htk : tokenizeSql s with
      | nil => rw [htk] at h; exact absurd h (by simp)
      | cons a l =>
        rw [htk] at h
        have ha : a = "select" := by simpa using h
        subst ha
        exact ⟨_, _, rfl, by decide⟩
    · cases htk : tokenizeSql s with
      | nil => rw [htk] at h; exact absurd h (by simp)
      | cons a l =>
        rw [htk] at h
        have ha : a = "with" := by simpa using h
        subst ha
        exact ⟨_, _, rfl, by decide⟩
  unfold findDangerousKeyword
  rw [htoks]
  have step : findDangerousAux none (t0 :: rest) = findDangerousAux (some t0) rest := by
    conv_lhs => rw [findDangerousAux.eq_def]
    simp only [if_neg ht0]
  rw [step, findDangerousAux_isSome_iff rest t0, hasDangerousPair_iff_decomp rest t0]

/-- Closed witness for c2_dangerous_keyword_scan at the concrete token
stream of select 1 ; drop, whose semicolon token precedes the dangerous
keyword and is not an identifier-context token. -/
theorem c2_dangerous_keyword_scan_witness :
    ((tokenizeSql ("select 1 ; drop".data)).head? = some "select"
      ∨ (tokenizeSql ("select 1 ; drop".data)).head? = some "with")
    ∧ ((findDangerousKeyword ("select 1 ; drop".data)).isSome = true ↔
        ∃ pre a b post, tokenizeSql ("select 1 ; drop".data) = pre ++ a :: b :: post ∧
          b ∈ dangerousKeywords ∧ a ∉ identContextTokens) :=
  ⟨Or.inl rfl, c2_dangerous_keyword_scan _ (Or.inl rfl)⟩

/-- C3: characters inside quoted literals (with doubled-quote escapes)
and inside line and block comments never reach the scanning copy, so
semicolons and keywords there never count; a scanning copy with more
than one semicolon is rejected; with exactly one, success requires it to
be the final non-whitespace character of the original and of the
scanning copy; and the returned text is the trimmed original, with that
one trailing semicolon removed when present. -/
theorem c3_scanning_copy_and_semicolons :
    (∀ lit rest, squote ∉ lit → rest.head? ≠ some squote →
      stripSqlLiteralsAndComments (squote :: (lit ++ squote :: rest))
        = ' ' :: stripSqlAux SqlStripState.normal rest)
    ∧ (∀ lit rest, dquote ∉ lit → rest.head? ≠ some dquote →
      stripSqlLiteralsAndComments (dquote :: (lit ++ dquote :: rest))
        = ' ' :: stripSqlAux SqlStripState.normal rest)
    ∧ (∀ rest, stripSqlAux SqlStripState.singleQuote (squote :: squote :: rest)
        = stripSqlAux SqlStripState.singleQuote rest)
    ∧ (∀ rest, stripSqlAux SqlStripState.doubleQuote (dquote :: dquote :: rest)
        = stripSqlAux SqlStripState.doubleQuote rest)
    ∧ (∀ body rest, nl ∉ body →
      stripSqlLiteralsAndComments ('-' :: '-' :: (body ++ nl :: rest))
        = nl :: stripSqlAux SqlStripState.normal rest)
    ∧ (∀ body rest, ('*' : Char) ∉ body →
      stripSqlLiteralsAndComments ('/' :: '*' :: (body ++ '*' :: '/' :: rest))
        = body.filter (fun c => decide (c = nl)) ++ stripSqlAux SqlStripState.normal rest)
    ∧ (∀ raw : String, 1 < ((checkedOf raw.data).count ';') →
      (tabularValidateQuery (some raw)).isOk = false)
    ∧ (∀ (raw q : String), tabularValidateQuery (some raw) = Except.ok q →
      (checkedOf raw.data).count ';' = 1 →
        (checkedOf raw.data).getLast? = some ';'
          ∧ (pyStrip raw.data).getLast? = some ';')
    ∧ (∀ (raw q : String), tabularValidateQuery (some raw) = Except.ok q →
      ((checkedOf raw.data).count ';' = 0 ∧ q = String.mk (pyStrip raw.data))
      ∨ ((checkedOf raw.data).count ';' = 1
          ∧ q = String.mk (pyStrip (pyStrip raw.data).dropLast))) := by
  refine ⟨?_, ?_, ?_, ?_, ?_, ?_, ?_, ?_, ?_⟩
  · intro lit rest h1 h2
    have e : stripSqlLiteralsAndComments (squote :: (lit ++ squote :: rest))
        = ' ' :: stripSqlAux SqlStripState.singleQuote (lit ++ squote :: rest) := by
      unfold stripSqlLiteralsAndComments
      conv_lhs => rw [stripSqlAux.eq_def]
      simp
    rw [e, stripSqlAux_singleQuote_skips lit rest h1 h2]
  · intro lit rest h1 h2
    have e : stripSqlLiteralsAndComments (dquote :: (lit ++ dquote :: rest))
        = ' ' :: stripSqlAux SqlStripState.doubleQuote (lit ++ dquote :: rest) := by
      unfold stripSqlLiteralsAndComments
      conv_lhs => rw [stripSqlAux.eq_def]
      simp [squote, dquote]
    rw [e, stripSqlAux_doubleQuote_skips lit rest h1 h2]
  · intro rest
    conv_lhs => rw [stripSqlAux.eq_def]
    simp
  · intro rest
    conv_lhs => rw [stripSqlAux.eq_def]
    simp [squote, dquote]
  · intro body rest h1
    have e : stripSqlLiteralsAndComments ('-' :: '-' :: (body ++ nl :: rest))
        = stripSqlAux SqlStripState.lineComment (body ++ nl :: rest) := by
      unfold stripSqlLiteralsAndComments
      conv_lhs => rw [stripSqlAux.eq_def]
      simp [squote, dquote]
    rw [e, stripSqlAux_lineComment_skips body rest h1]
  · intro body rest h1
    have e : stripSqlLiteralsAndComments ('/' :: '*' :: (body ++ '*' :: '/' :: rest))
        = stripSqlAux SqlStripState.blockComment (body ++ '*' :: '/' :: rest) := by
      unfold stripSqlLiteralsAndComments
      conv_lhs => rw [stripSqlAux.eq_def]
      simp [squote, dquote]
    rw [e, stripSqlAux_blockComment_skips body rest h1]
  · exact validate_multi_semicolon
  · exact fun raw q => validate_single_semicolon_ends raw q
  · exact fun raw q => validate_count_zero_or_one raw q

/-- Closed witness for c3_scanning_copy_and_semicolons: a semicolon
hidden inside a single-quoted literal is dropped from the scanning copy,
and a query whose scanning copy carries two semicolons is rejected. -/
theorem c3_scanning_copy_and_semicolons_witness :
    (squote ∉ [';'] ∧ ([] : List Char).head? ≠ some squote ∧
      stripSqlLiteralsAndComments (squote :: ([';'] ++ squote :: []))
        = ' ' :: stripSqlAux SqlStripState.normal [])
    ∧ (1 < ((checkedOf ("SELECT 1; ;".data)).count ';')
        ∧ (tabularValidateQuery (some "SELECT 1; ;")).isOk = false) :=
  ⟨⟨by decide, by decide,
      c3_scanning_copy_and_semicolons.1 [';'] [] (by decide) (by decide)⟩,
    ⟨by decide,
      c3_scanning_copy_and_semicolons.2.2.2.2.2.2.1 "SELECT 1; ;" (by decide)⟩⟩

/-- The ten engine type tags classified as integer by
_tabular_inferred_type (worker.py:4970-4981). -/
def tabularIntegerTypes : List String :=
  ["TINYINT", "SMALLINT", "INTEGER", "INT", "BIGINT", "HUGEINT",
   "UTINYINT", "USMALLINT", "UINTEGER", "UBIGINT"]

/-- Does the haystack contain any of the needles as a substring. -/
def strContainsAny (hay : String) (needles : List String) : Bool :=
  needles.any (fun n => listHasSub n.data hay.data)

/-- Core classification of _tabular_inferred_type (worker.py:4966-4992)
on the already upper-cased, trimmed type tag. -/
def tabularInferredTypeCore (t : String) : String :=
  if t = "" then "string"
  else if t ∈ tabularIntegerTypes then "integer"
  else if strContainsAny t ["DECIMAL", "NUMERIC", "DOUBLE", "FLOAT", "REAL"] then "float"
  else if t = "BOOLEAN" ∨ t = "BOOL" then "boolean"
  else if strContainsAny t ["DATE", "TIME"] then "date"
  else if strContainsAny t ["CHAR", "TEXT", "STRING", "VARCHAR", "UUID", "JSON"] then "string"
  else "string"

/-- _tabular_inferred_type (worker.py:4966-4992): strip and upper-case
the physical engine type tag, then classify. -/
def tabularInferredType (dbType : String) : String :=
  tabularInferredTypeCore (String.mk (pyUpper (pyStrip dbType.data)))

/-- Integral family tags as enumerated by the claim: TINYINT, SMALLINT,
INTEGER, INT, BIGINT, HUGEINT and their unsigned variant tags. -/
def claimIntegralFamilyTags : List String :=
  ["TINYINT", "SMALLINT", "INTEGER", "INT", "BIGINT", "HUGEINT",
   "UTINYINT", "USMALLINT", "UINTEGER", "UBIGINT"]

/-- Fixed mapping table of the claim, read as an ordered first-match
classification: integral family tags to integer; tags containing
DECIMAL, NUMERIC, DOUBLE, FLOAT or REAL to float; BOOLEAN or BOOL to
boolean; tags containing DATE or TIME to date; every other tag,
including text, character, VARCHAR, JSON, UUID and empty or
unrecognized tags, to string. -/
def claimTypeMappingCore (t : String) : String :=
  if t ∈ claimIntegralFamilyTags then "integer"
  else if strContainsAny t ["DECIMAL", "NUMERIC", "DOUBLE", "FLOAT", "REAL"] then "float"
  else if t = "BOOLEAN" ∨ t = "BOOL" then "boolean"
  else if strContainsAny t ["DATE", "TIME"] then "date"
  else "string"

/-- The claim mapping applied to a raw physical type tag, after the same
trim and upper-case normalization the code performs. -/
def claimTypeMapping (dbType : String) : String :=
  claimTypeMappingCore (String.mk (pyUpper (pyStrip dbType.data)))

theorem inferredTypeCore_eq_claimCore (t : String) :
    tabularInferredTypeCore t = claimTypeMappingCore t := by
  unfold tabularInferredTypeCore claimTypeMappingCore
  have hl : claimIntegralFamilyTags = tabularIntegerTypes := rfl
  rw [hl]
  by_cases h0 : t = ""
  · subst h0; rfl
  · rw [if_neg h0]
    split_ifs <;> rfl

/-- C9: for every physical engine type tag, the inferred column type is
exactly the fixed mapping the claim describes. -/
theorem c9_inferred_type_mapping (dbType : String) :
    tabularInferredType dbType = claimTypeMapping dbType :=
  inferredTypeCore_eq_claimCore _

/-- One chunk record emitted by _tabular_chunks: an index and a rows
range rendered as start-end (worker.py:5171). -/
structure Chunk where
  index : Nat
  rows : String
deriving DecidableEq

/-- Loop of _tabular_chunks (worker.py:5163-5174).  The Python loop
would not terminate for chunkRows = 0; the worker only ever calls it
with TABULAR_CHUNK_ROWS = 100, and the zero case is mapped to the empty
list here to keep the function total. -/
def tabularChunksAux (totalRows chunkRows start index : Nat) : List Chunk :=
  if chunkRows = 0 then []
  else if h : start ≤ totalRows then
    Chunk.mk index
        (toString start ++ "-" ++ toString (min (start + chunkRows - 1) totalRows))
      :: tabularChunksAux totalRows chunkRows
          (min (start + chunkRows - 1) totalRows + 1) (index + 1)
  else []
termination_by totalRows + 1 - start
decreasing_by
  have h1 : start ≤ min (start + chunkRows - 1) totalRows := by
    have : start ≤ start + chunkRows - 1 := by omega
    omega
  omega

/-- _tabular_chunks (worker.py:5163-5174): empty for a non-positive row
count, else ranges of at most chunkRows rows starting at row 1. -/
def tabularChunks (totalRows : Nat) (chunkRows : Nat) : List Chunk :=
  if totalRows ≤ 0 then [] else tabularChunksAux totalRows chunkRows 1 0

/-- Closed form of the chunk at index j for a table of totalRows rows
and chunk size 100: rows 100 j + 1 through min (100 j + 100) totalRows. -/
def mkChunk (totalRows j : Nat) : Chunk :=
  Chunk.mk j (toString (100 * j + 1) ++ "-" ++ toString (min (100 * j + 100) totalRows))

theorem tabularChunksAux_closed (k : Nat) :
    ∀ (i totalRows : Nat), (totalRows + 99) / 100 - i = k →
      tabularChunksAux totalRows 100 (100 * i + 1) i
        = (List.range' i k).map (mkChunk totalRows) := by
  induction k with
  | zero =>
    intro i totalRows hk
    have hle : ¬ (100 * i + 1 ≤ totalRows) := by omega
    rw [tabularChunksAux]
    simp [hle]
  | succ k ih =>
    intro i totalRows hk
    have hlt : 100 * i + 1 ≤ totalRows := by omega
    rw [tabularChunksAux]
    rw [if_neg (by omega : ¬ (100 : Nat) = 0), dif_pos hlt]
    by_cases hfull : 100 * i + 100 ≤ totalRows
    · have hmin : min (100 * i + 1 + 100 - 1) totalRows = 100 * i + 100 := by omega
      rw [hmin]
      have hnext : 100 * i + 100 + 1 = 100 * (i + 1) + 1 := by ring
      rw [hnext, ih (i + 1) totalRows (by omega)]
      rw [List.range'_succ]
      simp only [List.map_cons, mkChunk]
      have hmin2 : min (100 * i + 100) totalRows = 100 * i + 100 := by omega
      rw [hmin2]
    · have hmin : min (100 * i + 1 + 100 - 1) totalRows = totalRows := by omega
      rw [hmin]
      have hstop : tabularChunksAux totalRows 100 (totalRows + 1) (i + 1) = [] := by
        rw [tabularChunksAux]
        simp
      rw [hstop]
      have hk0 : k = 0 := by omega
      subst hk0
      rw [List.range'_succ]
      simp only [List.range'_zero, List.map_cons, List.map_nil, mkChunk]
      have hmin2 : min (100 * i + 100) totalRows = totalRows := by omega
      rw [hmin2]

/-- C10: the chunk list for get_map partitions the row range exactly.
For totalRows = 0 the list is empty; for 0 < totalRows it is the map of
mkChunk over indices 0, 1, ..., ceil(totalRows / 100) - 1, so chunk
indices are consecutive from 0, chunk j covers the contiguous rows
100 j + 1 through min (100 j + 100) totalRows (at most 100 rows), the
first range starts at row 1, each range starts right after the previous
one ends, and the last range ends at totalRows exactly, because
totalRows is at most 100 times the chunk count. -/
theorem c10_chunks_partition (totalRows : Nat) :
    (totalRows = 0 → tabularChunks totalRows 100 = [])
    ∧ (0 < totalRows →
        tabularChunks totalRows 100
          = (List.range' 0 ((totalRows + 99) / 100)).map (mkChunk totalRows)
        ∧ totalRows ≤ 100 * ((totalRows + 99) / 100)) := by
  constructor
  · intro h; subst h; rfl
  · intro h
    constructor
    · unfold tabularChunks
      rw [if_neg (by omega)]
      have := tabularChunksAux_closed ((totalRows + 99) / 100) 0 totalRows (by omega)
      simpa using this
    · have h1 : totalRows + 99 = 100 * ((totalRows + 99) / 100) + (totalRows + 99) % 100 :=
        (Nat.div_add_mod _ _).symm
      have h2 : (totalRows + 99) % 100 < 100 := Nat.mod_lt _ (by omega)
      omega

/-- Closed witness for c10_chunks_partition at a 250 row table: three
chunks, rows 1-100, 101-200 and 201-250. -/
theorem c10_chunks_partition_witness :
    (0 < 250)
    ∧ (tabularChunks 250 100 = (List.range' 0 ((250 + 99) / 100)).map (mkChunk 250)
        ∧ 250 ≤ 100 * ((250 + 99) / 100)) :=
  ⟨by decide, (c10_chunks_partition 250).2 (by decide)⟩

/-- Modelled from the spec: the embedded analytical engine is an
external collaborator, so its evaluation of the wrapper statement
SELECT q dot star, COUNT star OVER () FROM (query) LIMIT w OFFSET k is
not in src.  For the identity query over the cached table it returns
the window of the table obtained by skipping the offset and taking at
most the limit, each row extended with the unwindowed total row count
of the table (the COUNT OVER window function sees all rows). -/
def engineWindowRows (table : List α) (limitRows offsetRows : Nat) : List (α × Nat) :=
  ((table.drop offsetRows).take limitRows).map (fun r => (r, table.length))

/-- Modelled from the spec: the separate unwindowed SELECT COUNT star
issued by tabular_query when a window past the end comes back empty. -/
def engineCountRows (table : List α) : Nat := table.length

/-- The row-trimming loop of _read_window_with_total inside
tabular_query (worker.py:5675-5701): strip the injected total-count
column from each row, and keep the last seen value of that column as
the reported total (0 when no row was returned). -/
def readWindowWithTotal (table : List α) (windowRows windowOffset : Nat) :
    List α × Nat :=
  (List.map Prod.fst (engineWindowRows table windowRows windowOffset),
    List.foldl (fun _ rt => rt.2) 0 (engineWindowRows table windowRows windowOffset))

/-- The windowed-read logic of tabular_query (worker.py:5703-5714): run
the wrapped windowed query, and if it returned no rows while the offset
is positive, recover the total through the separate unwindowed count. -/
def tabularQueryWindow (table : List α) (windowRows windowOffset : Nat) :
    List α × Nat :=
  let res := readWindowWithTotal table windowRows windowOffset
  if res.1.length = 0 ∧ 0 < windowOffset then (res.1, engineCountRows table)
  else res

theorem foldl_snd_const {α : Type} (l : List α) (n : Nat) :
    ∀ init : Nat,
      List.foldl (fun _ rt => rt.2) init (l.map (fun r => (r, n)))
        = if l.isEmpty then init else n := by
  induction l with
  | nil => intro init; rfl
  | cons x xs ih =>
    intro init
    simp only [List.map_cons, List.foldl_cons, List.isEmpty_cons]
    rw [ih n]
    by_cases hxs : xs.isEmpty <;> simp [hxs]

theorem tabularQueryWindow_spec {α : Type} (table : List α) (k : Nat) :
    (tabularQueryWindow table 100 k).1.length = min 100 (table.length - k)
    ∧ (tabularQueryWindow table 100 k).2 = table.length := by
  have hlen : (List.map Prod.fst (engineWindowRows table 100 k)).length
      = min 100 (table.length - k) := by
    simp [engineWindowRows]
  have hfold : List.foldl (fun _ rt => rt.2) 0 (engineWindowRows table 100 k)
      = if ((table.drop k).take 100).isEmpty then 0 else table.length := by
    unfold engineWindowRows
    exact foldl_snd_const _ _ 0
  unfold tabularQueryWindow readWindowWithTotal
  by_cases hempty : (List.map Prod.fst (engineWindowRows table 100 k)).length = 0 ∧ 0 < k
  · rw [if_pos hempty]
    exact ⟨hlen, rfl⟩
  · rw [if_neg hempty]
    refine ⟨hlen, ?_⟩
    rw [hfold]
    by_cases he : ((table.drop k).take 100).isEmpty
    · rw [if_pos he]
      have hl0 : (List.map Prod.fst (engineWindowRows table 100 k)).length = 0 := by
        rw [hlen]
        have := List.isEmpty_iff.mp he
        have : ((table.drop k).take 100).length = 0 := by simp [this]
        simp only [List.length_take, List.length_drop] at this
        omega
      have hk0 : ¬ 0 < k := fun hk => hempty ⟨hl0, hk⟩
      have : table.length - k = 0 := by
        rw [hl0] at hlen
        omega
      omega
    · rw [if_neg he]

/-- C4: for every cached table of N rows and the identity query, the
executor at window_rows = 100 and window_offset = k returns exactly
min (100, max (0, N - k)) rows (natural subtraction) and reports the
total row count N, for every k in the set 0, N / 2, N - 1, N, N + 50;
in the empty-window case with positive offset the total comes from the
separate unwindowed count. -/
theorem c4_pagination_exactness {α : Type} (table : List α) (k : Nat)
    (hk : k = 0 ∨ k = table.length / 2 ∨ k = table.length - 1
      ∨ k = table.length ∨ k = table.length + 50) :
    (tabularQueryWindow table 100 k).1.length = min 100 (table.length - k)
    ∧ (tabularQueryWindow table 100 k).2 = table.length :=
  tabularQueryWindow_spec table k

/-- Closed witness for c4_pagination_exactness: a 7 row table read at
offset 3 returns 4 rows and total 7. -/
theorem c4_pagination_exactness_witness :
    ((3 : Nat) = 0 ∨ 3 = (List.range 7).length / 2 ∨ 3 = (List.range 7).length - 1
      ∨ 3 = (List.range 7).length ∨ 3 = (List.range 7).length + 50)
    ∧ ((tabularQueryWindow (List.range 7) 100 3).1.length
          = min 100 ((List.range 7).length - 3)
        ∧ (tabularQueryWindow (List.range 7) 100 3).2 = (List.range 7).length) :=
  ⟨by decide, c4_pagination_exactness (List.range 7) 3 (by decide)⟩

/-- TABULAR_CACHE_VERSION (worker.py:38). -/
def tabularCacheVersion : Int := 1

/-- Source signature as computed by _tabular_source_signature
(worker.py:4658-4671): size, mtime in nanoseconds, content hash. -/
structure TabularSourceSig where
  sizeBytes : Int
  mtimeNs : Int
  sha256 : String
deriving DecidableEq

/-- One column record of the persisted metadata (worker.py:5001-5008). -/
structure TabularColumnMeta where
  name : String
  index : Nat
  duckdbType : String
  inferredType : String
deriving DecidableEq

/-- The source sub-record of the persisted metadata (worker.py:5062-5068).
Fields are optional because a loaded JSON record may lack any of them. -/
structure TabularSourceMeta where
  root : Option String
  path : Option String
  sizeBytes : Option Int
  mtimeNs : Option Int
  sha256 : Option String
deriving DecidableEq

/-- Ingestion results recorded in the metadata but not examined by the
freshness check: sniffed dialect, detected encoding with its confidence
(a real value, modelled as a rational), row count and schema
(worker.py:5035-5052).  These parameterize a rebuild. -/
structure TabularIngestInfo where
  delimiter : String
  quoteChar : String
  hasHeader : Bool
  encodingDetected : String
  encodingConfidence : Rat
  rowCount : Nat
  columns : List TabularColumnMeta
deriving DecidableEq

/-- The persisted metadata record written by _tabular_rebuild_cache
(worker.py:5060-5078), with every field optional as loaded from JSON. -/
structure TabularMetadata where
  version : Option Int
  source : Option TabularSourceMeta
  format : Option String
  delimiter : Option String
  quoteChar : Option String
  hasHeader : Option Bool
  encodingDetected : Option String
  encodingConfidence : Option Rat
  rowCount : Option Nat
  columnCount : Option Nat
  columns : Option (List TabularColumnMeta)
deriving DecidableEq

/-- _tabular_cache_is_fresh (worker.py:4712-4743): version constant,
source record presence, stored relative path, size (default -1), mtime
(default -1), content hash (default empty), physical cache artifact
presence, and a stored columns list. -/
def tabularCacheIsFresh (md : TabularMetadata) (relPath : String)
    (sig : TabularSourceSig) (dbExists : Bool) : Bool :=
  if md.version ≠ some tabularCacheVersion then false
  else match md.source with
  | none => false
  | some src =>
    if src.path ≠ some relPath then false
    else if src.sizeBytes.getD (-1) ≠ sig.sizeBytes then false
    else if src.mtimeNs.getD (-1) ≠ sig.mtimeNs then false
    else if src.sha256.getD "" ≠ sig.sha256 then false
    else if !dbExists then false
    else match md.columns with
    | none => false
    | some _ => true

/-- Worker-side cache state for one source file: the persisted metadata
record (none when absent or unreadable) and whether the physical cache
artifact file exists. -/
structure CacheState where
  persisted : Option TabularMetadata
  dbExists : Bool
deriving DecidableEq

/-- _tabular_rebuild_cache (worker.py:5031-5080): the metadata written
after a successful ingestion, echoing the fresh source signature. -/
def tabularRebuildCache (root relPath : String) (sig : TabularSourceSig)
    (ingest : TabularIngestInfo) : TabularMetadata :=
  { version := some tabularCacheVersion
  , source := some
      { root := some root
      , path := some relPath
      , sizeBytes := some sig.sizeBytes
      , mtimeNs := some sig.mtimeNs
      , sha256 := some sig.sha256 }
  , format := some "csv"
  , delimiter := some ingest.delimiter
  , quoteChar := some ingest.quoteChar
  , hasHeader := some ingest.hasHeader
  , encodingDetected := some ingest.encodingDetected
  , encodingConfidence := some ingest.encodingConfidence
  , rowCount := some ingest.rowCount
  , columnCount := some ingest.columns.length
  , columns := some ingest.columns }

/-- _tabular_ensure_cache (worker.py:5083-5095): rebuild when the
persisted metadata is absent or not fresh, else return it unchanged.
The result is the new cache state, the metadata served, and whether a
rebuild (re-ingestion) happened. -/
def tabularEnsureCache (st : CacheState) (root relPath : String)
    (sig : TabularSourceSig) (ingest : TabularIngestInfo) :
    CacheState × TabularMetadata × Bool :=
  match st.persisted with
  | some md =>
    if tabularCacheIsFresh md relPath sig st.dbExists then (st, md, false)
    else
      (CacheState.mk (some (tabularRebuildCache root relPath sig ingest)) true,
        tabularRebuildCache root relPath sig ingest, true)
  | none =>
    (CacheState.mk (some (tabularRebuildCache root relPath sig ingest)) true,
      tabularRebuildCache root relPath sig ingest, true)

/-- The rebuild conditions as the claim enumerates them: metadata absent
or unreadable, schema-version constant differs, stored relative path
differs, stored size differs, stored mtime differs, stored content hash
differs, or the physical cache artifact file is missing.  Stored fields
absent from the record are compared through the defaults the code uses. -/
def claimStaleConditions (st : CacheState) (relPath : String)
    (sig : TabularSourceSig) : Bool :=
  match st.persisted with
  | none => true
  | some md =>
    decide (md.version ≠ some tabularCacheVersion) ||
      (match md.source with
       | none => true
       | some src =>
         decide (src.path ≠ some relPath) ||
           decide (src.sizeBytes.getD (-1) ≠ sig.sizeBytes) ||
           decide (src.mtimeNs.getD (-1) ≠ sig.mtimeNs) ||
           decide (src.sha256.getD "" ≠ sig.sha256)) ||
      !st.dbExists

theorem not_fresh_iff (md : TabularMetadata) (relPath : String)
    (sig : TabularSourceSig) (db : Bool) :
    tabularCacheIsFresh md relPath sig db = false ↔
      (claimStaleConditions (CacheState.mk (some md) db) relPath sig = true
        ∨ md.columns = none) := by
  unfold tabularCacheIsFresh claimStaleConditions
  cases hsrc : md.source with
  | none =>
    by_cases h1 : md.version ≠ some tabularCacheVersion
    · simp [h1, hsrc]
    · simp [h1, hsrc]
  | some src =>
    by_cases h1 : md.version ≠ some tabularCacheVersion
    · simp [h1, hsrc]
    · rw [if_neg h1]
      simp only [hsrc, h1, decide_False, Bool.false_or]
      split_ifs with h2 h3 h4 h5 h6
      · simp_all
      · simp_all
      · simp_all
      · simp_all
      · simp_all
      · cases hcol : md.columns with
        | none => simp_all
        | some cols => simp_all

/-- A metadata record agreeing with the current source signature in
version, path, size, mtime and hash, with the cache artifact present,
but with no stored columns list. -/
def c6Metadata : TabularMetadata :=
  { version := some tabularCacheVersion
  , source := some
      { root := some "draft"
      , path := some "a.csv"
      , sizeBytes := some 10
      , mtimeNs := some 5
      , sha256 := some "h" }
  , format := some "csv"
  , delimiter := some ","
  , quoteChar := some "q"
  , hasHeader := some true
  , encodingDetected := some "utf-8"
  , encodingConfidence := some 1
  , rowCount := some 3
  , columnCount := some 1
  , columns := none }

/-- Cache state holding c6Metadata with the artifact present. -/
def c6State : CacheState := CacheState.mk (some c6Metadata) true

/-- The current signature matching every stored field of c6Metadata. -/
def c6Sig : TabularSourceSig := TabularSourceSig.mk 10 5 "h"

/-- Ingestion outcome used when exercising the cache model. -/
def c6Ingest : TabularIngestInfo :=
  TabularIngestInfo.mk "," "q" true "utf-8" 1 3 []

/-- Counterexample to C6 as stated: ensure_cache re-ingests on a
metadata record whose stored signature, version, path and artifact all
match (none of the claim conditions holds) but whose columns field is
absent, so the rebuild happens although the claim says the persisted
entry would be returned without re-ingestion. -/
theorem c6_cache_freshness_counterexample :
    (tabularEnsureCache c6State "draft" "a.csv" c6Sig c6Ingest).2.2 = true
    ∧ claimStaleConditions c6State "a.csv" c6Sig = false := by
  constructor <;> decide

/-- C6 amended: ensure_cache rebuilds if and only if the persisted
metadata is absent or unreadable, or its schema-version constant,
stored relative path, size, mtime or content hash differ from the fresh
source signature, or the physical cache artifact is missing, or the
stored columns list is absent. -/
theorem c6_cache_freshness_amended (st : CacheState) (root relPath : String)
    (sig : TabularSourceSig) (ingest : TabularIngestInfo) :
    (tabularEnsureCache st root relPath sig ingest).2.2 = true ↔
      (claimStaleConditions st relPath sig = true
        ∨ ∃ md, st.persisted = some md ∧ md.columns = none) := by
  cases hp : st.persisted with
  | none =>
    have hstale : claimStaleConditions st relPath sig = true := by
      unfold claimStaleConditions
      rw [hp]
    simp [tabularEnsureCache, hp, hstale]
  | some md =>
    have hst : CacheState.mk (some md) st.dbExists = st := by
      cases st with
      | mk p d =>
        simp only at hp
        rw [hp]
    simp only [tabularEnsureCache, hp]
    by_cases hf : tabularCacheIsFresh md relPath sig st.dbExists = true
    · rw [if_pos hf]
      constructor
      · intro hcontra; exact absurd hcontra (by simp)
      · rintro (hstale | ⟨md2, hmd2, hcol⟩)
        · have hfalse : tabularCacheIsFresh md relPath sig st.dbExists = false := by
            rw [not_fresh_iff]
            left
            rw [hst]
            exact hstale
          exact absurd (hf.symm.trans hfalse) (by simp)
        · have hmd : md = md2 := by injection hmd2
          subst hmd
          have hfalse : tabularCacheIsFresh md relPath sig st.dbExists = false := by
            rw [not_fresh_iff]
            right
            exact hcol
          exact absurd (hf.symm.trans hfalse) (by simp)
    · rw [if_neg hf]
      constructor
      · intro _
        have hff : tabularCacheIsFresh md relPath sig st.dbExists = false := by
          cases h2 : tabularCacheIsFresh md relPath sig st.dbExists with
          | false => rfl
          | true => exact absurd h2 hf
        rcases (not_fresh_iff md relPath sig st.dbExists).mp hff with hstale | hcol
        · left
          rw [hst] at hstale
          exact hstale
        · exact Or.inr ⟨md, rfl, hcol⟩
      · intro _
        rfl

/-- Closed witness for c6_cache_freshness_amended at the concrete
columns-missing state: the amended conditions hold there and the model
rebuilds. -/
theorem c6_cache_freshness_amended_witness :
    (tabularEnsureCache c6State "draft" "a.csv" c6Sig c6Ingest).2.2 = true ↔
      (claimStaleConditions c6State "a.csv" c6Sig = true
        ∨ ∃ md, c6State.persisted = some md ∧ md.columns = none) :=
  c6_cache_freshness_amended c6State "draft" "a.csv" c6Sig c6Ingest

theorem fresh_after_rebuild (root relPath : String) (sig : TabularSourceSig)
    (ingest : TabularIngestInfo) :
    tabularCacheIsFresh (tabularRebuildCache root relPath sig ingest) relPath sig true
      = true := by
  simp [tabularCacheIsFresh, tabularRebuildCache]

/-- C7: ensure_cache is idempotent.  For every starting state and
unchanged source signature, the second of two consecutive calls returns
exactly the metadata of the first call and performs no re-ingestion,
whatever ingestion outcome a rebuild would produce. -/
theorem c7_ensure_cache_idempotent (st : CacheState) (root relPath : String)
    (sig : TabularSourceSig) (ing1 ing2 : TabularIngestInfo) :
    (tabularEnsureCache (tabularEnsureCache st root relPath sig ing1).1
        root relPath sig ing2).2.1
      = (tabularEnsureCache st root relPath sig ing1).2.1
    ∧ (tabularEnsureCache (tabularEnsureCache st root relPath sig ing1).1
        root relPath sig ing2).2.2 = false := by
  cases hp : st.persisted with
  | none =>
    simp [tabularEnsureCache, hp, fresh_after_rebuild]
  | some md =>
    by_cases hf : tabularCacheIsFresh md relPath sig st.dbExists = true
    · simp [tabularEnsureCache, hp, hf]
    · simp [tabularEnsureCache, hp, hf, fresh_after_rebuild]

/-- Errors surfaced by the tabular subsystem: a WorkerError with a
taxonomy code and message, or a raw engine exception. -/
inductive TabularError where
  | workerError (code : String) (message : String)
  | engineError (message : String)
deriving DecidableEq

/-- _tabular_run_with_timeout (worker.py:4885-4921).  The wrapped
operation outcome is given as an Except value and the supervisor timer
state at the moment the operation finishes as the timedOut flag (the
timer thread sets it before interrupting).  A non-positive timeout runs
the operation bare.  The second component records whether the finally
block ran with a started timer and cancelled it. -/
def tabularRunWithTimeout (timeoutMs : Int) (errorCode : String)
    (timedOut : Bool) (op : Except TabularError α) :
    Except TabularError α × Bool :=
  if timeoutMs ≤ 0 then (op, false)
  else
    match op with
    | Except.ok a => (Except.ok a, true)
    | Except.error e =>
      (if timedOut then
          Except.error (TabularError.workerError errorCode
            ("query timed out after " ++ toString timeoutMs ++ "ms"))
        else Except.error e, true)

/-- Counterexample to C8 as stated: the CSV and xlsx export writers run
under the supervisor with error code FILE_WRITE_FAILED
(worker.py:5772, 5796), so a timeout there surfaces as a write-failure
class error, not a read-failure class error. -/
theorem c8_timeout_counterexample :
    (tabularRunWithTimeout 5000 "FILE_WRITE_FAILED" true
        (Except.error (TabularError.engineError "interrupted") : Except TabularError Nat)).1
      = Except.error (TabularError.workerError "FILE_WRITE_FAILED"
          ("query timed out after " ++ toString (5000 : Int) ++ "ms"))
    ∧ "FILE_WRITE_FAILED" ≠ "FILE_READ_FAILED" := by
  constructor
  · rfl
  · decide

/-- C8 amended: for every operation run under the supervisor with
positive configured timeout T and caller-supplied error code (the
FILE_READ_FAILED default for query and read operations, and
FILE_WRITE_FAILED for the export writers): an operation that raises
with the timeout flag set surfaces as a WorkerError carrying that code
and the message naming T; an operation that raises with the flag unset
propagates unchanged; and a normal completion returns the result
unchanged with the timer cancelled. -/
theorem c8_timeout_supervisor_amended (timeoutMs : Int) (errorCode : String)
    (timedOut : Bool) (op : Except TabularError Nat)
    (hpos : 0 < timeoutMs) :
    (∀ e, op = Except.error e → timedOut = true →
      (tabularRunWithTimeout timeoutMs errorCode timedOut op).1
        = Except.error (TabularError.workerError errorCode
            ("query timed out after " ++ toString timeoutMs ++ "ms")))
    ∧ (∀ e, op = Except.error e → timedOut = false →
      (tabularRunWithTimeout timeoutMs errorCode timedOut op).1 = Except.error e)
    ∧ (∀ a, op = Except.ok a →
      (tabularRunWithTimeout timeoutMs errorCode timedOut op)
        = (Except.ok a, true)) := by
  have hneg : ¬ timeoutMs ≤ 0 := by omega
  refine ⟨?_, ?_, ?_⟩
  · intro e hop hflag
    subst hop; subst hflag
    simp [tabularRunWithTimeout, hneg]
  · intro e hop hflag
    subst hop; subst hflag
    simp [tabularRunWithTimeout, hneg]
  · intro a hop
    subst hop
    simp [tabularRunWithTimeout, hneg]

/-- Closed witness for c8_timeout_supervisor_amended: a query raising
after the 5000 ms flag fired surfaces as FILE_READ_FAILED naming the
budget. -/
theorem c8_timeout_supervisor_amended_witness :
    (0 : Int) < 5000
    ∧ (tabularRunWithTimeout 5000 "FILE_READ_FAILED" true
          (Except.error (TabularError.engineError "boom") : Except TabularError Nat)).1
        = Except.error (TabularError.workerError "FILE_READ_FAILED"
            ("query timed out after " ++ toString (5000 : Int) ++ "ms")) :=
  ⟨by decide,
    (c8_timeout_supervisor_amended 5000 "FILE_READ_FAILED" true
        (Except.error (TabularError.engineError "boom")) (by decide)).1
      (TabularError.engineError "boom") rfl rfl⟩

/-- Abstract filesystem: a map from paths to file contents. -/
def TabularFs : Type := String → Option String

/-- Point update of the abstract filesystem. -/
def fsUpdate (fs : TabularFs) (p : String) (v : Option String) : TabularFs :=
  fun q => if q = p then v else fs q

/-- _tabular_export_csv (worker.py:5754-5772): the writer opens the
target path itself with mode w, which immediately truncates it, and
streams the serialized lines (header first) into it.  lines is the
stream of serialized output lines; failAt (when some k) is the number
of lines written before the streamed read raises.  The second
component reports success. -/
def tabularExportCsvRun (fs : TabularFs) (targetPath : String)
    (lines : List String) (failAt : Option Nat) : TabularFs × Bool :=
  match failAt with
  | none => (fsUpdate fs targetPath (some (String.join lines)), true)
  | some k => (fsUpdate fs targetPath (some (String.join (lines.take k))), false)

/-- _tabular_export_xlsx (worker.py:5775-5796): the workbook is saved
directly to the target path; a failing save leaves whatever partial
bytes were flushed there. -/
def tabularExportXlsxRun (fs : TabularFs) (targetPath : String)
    (content partialContent : String) (saveFails : Bool) : TabularFs × Bool :=
  if saveFails then (fsUpdate fs targetPath (some partialContent), false)
  else (fsUpdate fs targetPath (some content), true)

/-- _xlsx_save_workbook_atomic (worker.py:5930-5943): create a fresh
temporary file next to the target, save the workbook into it, and
os.replace it onto the target; on a failing save the partially written
temporary is removed and the target is never touched. -/
def xlsxSaveWorkbookAtomicRun (fs : TabularFs) (targetPath tmpPath : String)
    (content partialContent : String) (saveFails : Bool) : TabularFs × Bool :=
  let fs1 := fsUpdate fs tmpPath (some "")
  if saveFails then
    (fsUpdate (fsUpdate fs1 tmpPath (some partialContent)) tmpPath none, false)
  else
    (fsUpdate (fsUpdate (fsUpdate fs1 tmpPath (some content)) targetPath (some content))
        tmpPath none, true)

/-- The filesystem before the failing CSV export of the counterexample:
the target holds the previous artifact contents. -/
def c5Fs : TabularFs := fun p => if p = "out.csv" then some "old" else none

/-- Counterexample to C5 as stated: the CSV export writer does not
stage to a temporary artifact.  A failure after one written line leaves
that partial line visible at the target path, destroying the previous
contents, contrary to the claim that a failure before any rename leaves
the previous target contents untouched. -/
theorem c5_atomic_export_counterexample :
    ((tabularExportCsvRun c5Fs "out.csv" ["a", "b"] (some 1)).2 = false)
    ∧ ((tabularExportCsvRun c5Fs "out.csv" ["a", "b"] (some 1)).1 "out.csv" = some "a")
    ∧ (c5Fs "out.csv" = some "old")
    ∧ (some "a" ≠ some "old") := by
  refine ⟨rfl, ?_, rfl, by decide⟩
  show fsUpdate c5Fs "out.csv" (some (String.join (["a", "b"].take 1))) "out.csv" = some "a"
  simp [fsUpdate, String.join]

/-- C5 amended: only the round-trip writer used by update_from_export
stages its output to a temporary artifact and renames atomically — for
it, a failure before the rename leaves the previous target contents
untouched and removes the temporary artifact, while success installs
the new contents.  The CSV and xlsx export writers instead write
directly to the target path, so a mid-write failure leaves the partial
artifact visible there. -/
theorem c5_atomic_write_amended (fs : TabularFs) (targetPath tmpPath : String)
    (content partialContent : String) (hne : tmpPath ≠ targetPath) :
    ((xlsxSaveWorkbookAtomicRun fs targetPath tmpPath content partialContent true).1
        targetPath = fs targetPath
      ∧ (xlsxSaveWorkbookAtomicRun fs targetPath tmpPath content partialContent true).1
          tmpPath = none
      ∧ (xlsxSaveWorkbookAtomicRun fs targetPath tmpPath content partialContent true).2
          = false)
    ∧ ((xlsxSaveWorkbookAtomicRun fs targetPath tmpPath content partialContent false).1
          targetPath = some content
      ∧ (xlsxSaveWorkbookAtomicRun fs targetPath tmpPath content partialContent false).1
          tmpPath = none)
    ∧ (∀ lines k, (tabularExportCsvRun fs targetPath lines (some k)).1 targetPath
        = some (String.join (lines.take k)))
    ∧ ((tabularExportXlsxRun fs targetPath content partialContent true).1 targetPath
        = some partialContent) := by
  have hne2 : targetPath ≠ tmpPath := fun h => hne h.symm
  refine ⟨⟨?_, ?_, rfl⟩, ⟨?_, ?_⟩, ?_, ?_⟩
  · simp [xlsxSaveWorkbookAtomicRun, fsUpdate, hne2]
  · simp [xlsxSaveWorkbookAtomicRun, fsUpdate]
  · simp [xlsxSaveWorkbookAtomicRun, fsUpdate, hne2]
  · simp [xlsxSaveWorkbookAtomicRun, fsUpdate]
  · intro lines k
    simp [tabularExportCsvRun, fsUpdate]
  · simp [tabularExportXlsxRun, fsUpdate]

/-- Closed witness for c5_atomic_write_amended at a concrete filesystem
and distinct temporary and target paths. -/
theorem c5_atomic_write_amended_witness :
    (".keenbench-tmp.xlsx" : String) ≠ "report.xlsx"
    ∧ (((xlsxSaveWorkbookAtomicRun c5Fs "report.xlsx" ".keenbench-tmp.xlsx" "new" "par" true).1
          "report.xlsx" = c5Fs "report.xlsx"
        ∧ (xlsxSaveWorkbookAtomicRun c5Fs "report.xlsx" ".keenbench-tmp.xlsx" "new" "par" true).1
            ".keenbench-tmp.xlsx" = none
        ∧ (xlsxSaveWorkbookAtomicRun c5Fs "report.xlsx" ".keenbench-tmp.xlsx" "new" "par" true).2
            = false)
      ∧ ((xlsxSaveWorkbookAtomicRun c5Fs "report.xlsx" ".keenbench-tmp.xlsx" "new" "par" false).1
            "report.xlsx" = some "new"
        ∧ (xlsxSaveWorkbookAtomicRun c5Fs "report.xlsx" ".keenbench-tmp.xlsx" "new" "par" false).1
            ".keenbench-tmp.xlsx" = none)
      ∧ (∀ lines k, (tabularExportCsvRun c5Fs "report.xlsx" lines (some k)).1 "report.xlsx"
          = some (String.join (lines.take k)))
      ∧ ((tabularExportXlsxRun c5Fs "report.xlsx" "new" "par" true).1 "report.xlsx"
          = some "par")) :=
  ⟨by decide,
    c5_atomic_write_amended c5Fs "report.xlsx" ".keenbench-tmp.xlsx" "new" "par" (by decide)⟩

end Tabular
